import Mathlib

/-!
Shallow embedding of the quiz-generator application
(`src/types.ts` and `src/services/geminiService.ts`, which also contains the
`App` component with the session state machine).

Remote calls are asynchronous and may throw; every awaited outcome is made an
explicit parameter of type `Except JsThrown _`, and the nondeterministic
comparator randomness used by `shuffleArray` is made an explicit boolean
oracle. Everything else is translated directly from the JavaScript source.
-/

namespace QuizApp

/-- Model of an answer choice `{ text, isCorrect, feedback }` from `types.ts`. -/
structure Answer where
  text : String
  isCorrect : Bool
  feedback : String
deriving DecidableEq

/-- Model of a question source citation `{ title, url }` from `types.ts`. -/
structure SourceRef where
  title : String
  url : String
deriving DecidableEq

/-- Model of `QuizQuestion` from `types.ts`. -/
structure QuizQuestion where
  question : String
  answers : List Answer
  source : SourceRef
deriving DecidableEq

/-- Model of `UserAnswer` from `types.ts`; the indices are natural numbers. -/
structure UserAnswer where
  questionIndex : Nat
  answerIndex : Nat
deriving DecidableEq

/-- Model of the `AppState` enum from `types.ts`. -/
inductive AppState where
  | SETUP
  | ANALYZING
  | GENERATING
  | TAKING_QUIZ
  | REVIEW
deriving DecidableEq

/-- A value thrown by awaited code: either a JS `Error` object carrying a
message, or any non-`Error` thrown value. -/
inductive JsThrown where
  | error (message : String)
  | other
deriving DecidableEq

/-- Model of the catch-clause pattern
`err instanceof Error ? err.message : fallback`. -/
def caughtMessage (fallback : String) : JsThrown → String
  | .error m => m
  | .other => fallback

/-- Parsed JSON of the topic-extraction response, per the response schema
`{ topics: string[], isGuide: boolean }`; `topics` is optional because the
code guards with `jsonResponse.topics || []`. -/
structure TopicsResponse where
  topics : Option (List String)
  isGuide : Bool
deriving DecidableEq

/-- Error message thrown by `extractTopicsFromGuide` when `isGuide` is false. -/
def invalidGuideMessage : String :=
  "The uploaded document does not appear to be a valid exam guide. Please upload a relevant file."

/-- Model of `extractTopicsFromGuide`, as a function of the awaited remote
outcome: a transport or parse failure is an `Except.error` input; otherwise the
parsed `TopicsResponse` is inspected exactly as in the source
(`if (!jsonResponse.isGuide) throw ...; return jsonResponse.topics || [];`). -/
def extractTopicsFromGuide (response : Except JsThrown TopicsResponse) :
    Except JsThrown (List String) :=
  match response with
  | .error e => .error e
  | .ok r =>
    if !r.isGuide then .error (.error invalidGuideMessage)
    else .ok (r.topics.getD [])

/-- Model of a grounding chunk web source `{ title, uri }`. -/
structure WebSource where
  title : String
  uri : String
deriving DecidableEq

/-- Model of a grounding chunk `{ web: { title, uri } }`. -/
structure GroundingChunk where
  web : WebSource
deriving DecidableEq

/-- Model of `groundingMetadata`, whose `groundingChunks` field may be absent. -/
structure GroundingMetadata where
  groundingChunks : Option (List GroundingChunk)
deriving DecidableEq

/-- Model of a response candidate, whose `groundingMetadata` may be absent. -/
structure Candidate where
  groundingMetadata : Option GroundingMetadata
deriving DecidableEq

/-- Model of the search-phase response; `candidates` may be absent. -/
structure SearchResponse where
  candidates : Option (List Candidate)
deriving DecidableEq

/-- Model of
`searchResponse.candidates?.[0]?.groundingMetadata` followed by
`groundingMetadata?.groundingChunks || []`: each optional-chaining step is an
`Option.bind`, and the final `|| []` is `Option.getD []`. -/
def extractGroundingChunks (r : SearchResponse) : List GroundingChunk :=
  (((r.candidates.bind List.head?).bind Candidate.groundingMetadata).bind
    GroundingMetadata.groundingChunks).getD []

/-- The fallback instruction substituted when no grounding citations are found. -/
def fallbackSourcesText : String :=
  "No external sources found. Please rely solely on the provided exam guide."

/-- One line of the sources list: `- Title: ..., URL: ...`. -/
def chunkLine (c : GroundingChunk) : String :=
  "- Title: " ++ c.web.title ++ ", URL: " ++ c.web.uri

/-- Model of the `sourcesText` computation in `generateQuizQuestions`:
initialized to the fallback and overwritten when `groundingChunks.length > 0`. -/
def sourcesTextFor (chunks : List GroundingChunk) : String :=
  if chunks.length > 0 then
    "Use the following official sources as the primary reference for generating questions:\n" ++
      String.intercalate "\n" (chunks.map chunkLine)
  else fallbackSourcesText

/-- Number of answers of a question flagged correct:
`q.answers.filter(a => a.isCorrect).length`. -/
def numCorrect (q : QuizQuestion) : Nat :=
  (q.answers.filter (fun a => a.isCorrect)).length

/-- Model of the final validation in `generateQuizQuestions`:
`quizData.filter(q => q.answers.filter(a => a.isCorrect).length === 1)`. -/
def validateQuestions (quizData : List QuizQuestion) : List QuizQuestion :=
  quizData.filter (fun q => (q.answers.filter (fun a => a.isCorrect)).length == 1)

/-- Model of `generateQuizQuestions`, as a function of the two awaited remote
outcomes: the search-phase result, and the generation-phase result viewed as a
function of the `sourcesText` that is spliced into the generation prompt. A
throw in either phase propagates; on success the parsed array is filtered by
the exactly-one-correct validation. -/
def generateQuizQuestions (search : Except JsThrown SearchResponse)
    (generate : String → Except JsThrown (List QuizQuestion)) :
    Except JsThrown (List QuizQuestion) :=
  match search with
  | .error e => .error e
  | .ok resp =>
    match generate (sourcesTextFor (extractGroundingChunks resp)) with
    | .error e => .error e
    | .ok quizData => .ok (validateQuestions quizData)

/-- One insertion step of a comparison sort modelling `Array.prototype.sort`
with the comparator `() => Math.random() - 0.5`: `f k` gives the sign of the
k-th comparator call (`true` means the comparator returned a negative value,
so the inserted element stays in front). Returns the resulting list together
with the updated comparison counter. -/
def insertRand {α : Type} (f : Nat → Bool) (a : α) : List α → Nat → List α × Nat
  | [], k => ([a], k)
  | b :: l, k =>
    if f k then (a :: b :: l, k + 1)
    else
      let p := insertRand f a l (k + 1)
      (b :: p.1, p.2)

/-- Insertion sort driven by the comparator oracle `f`, threading the
comparison counter. -/
def sortRand {α : Type} (f : Nat → Bool) : List α → Nat → List α × Nat
  | [], k => ([], k)
  | a :: l, k =>
    let p := sortRand f l k
    insertRand f a p.1 p.2

/-- Model of `shuffleArray = [...array].sort(() => Math.random() - 0.5)`: the
engine sort is modelled as an insertion sort and the comparator randomness by
the oracle `f`; the membership properties proved below hold for every oracle. -/
def shuffleArray {α : Type} (f : Nat → Bool) (l : List α) : List α :=
  (sortRand f l 0).1

/-- Model of `.map(q => ({ ...q, answers: shuffleArray(q.answers) }))` in
`handleGenerateQuiz`: each `shuffleArray` call draws fresh comparator
randomness, supplied here per list position by `flipsA`. -/
def randomizeAnswers (flipsA : Nat → Nat → Bool) : Nat → List QuizQuestion → List QuizQuestion
  | _, [] => []
  | i, q :: qs =>
    { q with answers := shuffleArray (flipsA i) q.answers } :: randomizeAnswers flipsA (i + 1) qs

/-- The presentation randomization in `handleGenerateQuiz`:
`shuffleArray(questions).map(q => ({ ...q, answers: shuffleArray(q.answers) }))`. -/
def randomizeQuestions (flipsQ : Nat → Bool) (flipsA : Nat → Nat → Bool)
    (questions : List QuizQuestion) : List QuizQuestion :=
  randomizeAnswers flipsA 0 (shuffleArray flipsQ questions)

/-- Model of the `fileData` React state `{ base64, mimeType }`. -/
structure FileData where
  base64 : String
  mimeType : String
deriving DecidableEq

/-- The session state of the `App` component: one field per `useState` hook
(the `File` object is modelled by its name). -/
structure SessionState where
  appState : AppState
  file : Option String
  fileData : Option FileData
  topics : List String
  selectedTopics : List String
  questionCount : Nat
  quizData : List QuizQuestion
  currentQuestionIndex : Nat
  userAnswers : List UserAnswer
  error : Option String
  loadingMessage : String
deriving DecidableEq

/-- The initial values of every `useState` hook in `App`. -/
def initialState : SessionState :=
  { appState := .SETUP
    file := none
    fileData := none
    topics := []
    selectedTopics := []
    questionCount := 10
    quizData := []
    currentQuestionIndex := 0
    userAnswers := []
    error := none
    loadingMessage := "" }

/-- Loading message set while analyzing the uploaded guide. -/
def analyzingMessage : String := "Analyzing your exam guide..."

/-- Loading message set while generating the quiz. -/
def generatingMessage : String := "Generating your custom quiz... This may take a moment."

/-- Error shown when the guide yields zero topics. -/
def noTopicsMessage : String :=
  "Could not find any topics in the document. Please try a different file."

/-- Fallback error text of `handleFileChange` for non-`Error` thrown values. -/
def analysisFallbackMessage : String := "An unknown error occurred during analysis."

/-- Fallback error text of `handleGenerateQuiz` for non-`Error` thrown values. -/
def generateFallbackMessage : String := "Failed to generate quiz."

/-- Error shown by the `handleGenerateQuiz` guard. -/
def selectTopicMessage : String := "Please upload a guide and select at least one topic."

/-- Model of `handleFileChange` for a selected file, flattening the async flow
to its final state: the handler first clears `error`, `topics` and
`selectedTopics`, sets `file` and enters `ANALYZING`; then the awaited
extraction outcome determines the final updates exactly as in the source
(success with topics, success with zero topics, or catch). -/
def handleFileChange (s : SessionState) (fileName : String) (fd : FileData)
    (outcome : Except JsThrown (List String)) : SessionState :=
  match outcome with
  | .ok extractedTopics =>
    if extractedTopics.length == 0 then
      { s with error := some noTopicsMessage
               appState := .SETUP
               file := none
               fileData := none
               topics := []
               selectedTopics := []
               loadingMessage := analyzingMessage }
    else
      { s with error := none
               appState := .SETUP
               file := some fileName
               fileData := some fd
               topics := extractedTopics
               selectedTopics := extractedTopics
               loadingMessage := analyzingMessage }
  | .error e =>
    { s with error := some (caughtMessage analysisFallbackMessage e)
             appState := .SETUP
             file := none
             fileData := none
             topics := []
             selectedTopics := []
             loadingMessage := analyzingMessage }

/-- Model of `handleTopicToggle`. -/
def handleTopicToggle (s : SessionState) (topic : String) : SessionState :=
  { s with selectedTopics :=
      if s.selectedTopics.contains topic then
        s.selectedTopics.filter (fun t => !(t == topic))
      else s.selectedTopics ++ [topic] }

/-- Model of the question-count slider `onChange`. -/
def handleQuestionCountChange (s : SessionState) (n : Nat) : SessionState :=
  { s with questionCount := n }

/-- Model of `handleGenerateQuiz`, flattened to its final state: the guard
`!fileData || selectedTopics.length === 0` returns early with only the error
set; otherwise the awaited `generateQuizQuestions` outcome either installs the
randomized questions (resetting index and answers, entering `TAKING_QUIZ`) or
is caught (error set, back to `SETUP`). -/
def handleGenerateQuiz (s : SessionState) (result : Except JsThrown (List QuizQuestion))
    (flipsQ : Nat → Bool) (flipsA : Nat → Nat → Bool) : SessionState :=
  if s.fileData.isNone || s.selectedTopics.length == 0 then
    { s with error := some selectTopicMessage }
  else
    match result with
    | .ok questions =>
      { s with error := none
               appState := .TAKING_QUIZ
               loadingMessage := generatingMessage
               quizData := randomizeQuestions flipsQ flipsA questions
               currentQuestionIndex := 0
               userAnswers := [] }
    | .error e =>
      { s with error := some (caughtMessage generateFallbackMessage e)
               appState := .SETUP
               loadingMessage := generatingMessage }

/-- Model of the `setUserAnswers` updater in `handleAnswerSelect`: if an entry
for `questionIndex` exists, map it to the new `answerIndex`; otherwise append. -/
def answerSelectUpdate (prev : List UserAnswer) (questionIndex answerIndex : Nat) :
    List UserAnswer :=
  if (prev.find? (fun a => a.questionIndex == questionIndex)).isSome then
    prev.map (fun a =>
      if a.questionIndex == questionIndex then { a with answerIndex := answerIndex } else a)
  else
    prev ++ [{ questionIndex := questionIndex, answerIndex := answerIndex }]

/-- Model of `handleAnswerSelect`. -/
def handleAnswerSelect (s : SessionState) (questionIndex answerIndex : Nat) : SessionState :=
  { s with userAnswers := answerSelectUpdate s.userAnswers questionIndex answerIndex }

/-- Model of `handleNextQuestion`; `quizData.length - 1` is truncated `Nat`
subtraction, which agrees with the JS comparison on every reachable state
(for an empty quiz both take the `REVIEW` branch). -/
def handleNextQuestion (s : SessionState) : SessionState :=
  if s.currentQuestionIndex < s.quizData.length - 1 then
    { s with currentQuestionIndex := s.currentQuestionIndex + 1 }
  else
    { s with appState := .REVIEW }

/-- Model of `handleStartOver`; the source resets exactly these eight fields
and leaves `questionCount`, `currentQuestionIndex` and `loadingMessage` alone. -/
def handleStartOver (s : SessionState) : SessionState :=
  { s with appState := .SETUP
           file := none
           fileData := none
           topics := []
           selectedTopics := []
           quizData := []
           userAnswers := []
           error := none }

/-- One step of the `userAnswers.reduce` in the `score` memo; the `none`
result models the TypeError raised by the unchecked indexing
`quizData[userAnswer.questionIndex].answers[userAnswer.answerIndex]` when an
index is out of bounds. -/
def scoreStep (quizData : List QuizQuestion) (acc : Option Nat) (userAnswer : UserAnswer) :
    Option Nat :=
  acc.bind (fun correctCount =>
    (quizData[userAnswer.questionIndex]?).bind (fun question =>
      (question.answers[userAnswer.answerIndex]?).map (fun answer =>
        if answer.isCorrect then correctCount + 1 else correctCount)))

/-- Model of the `score` memo: `userAnswers.reduce(..., 0)`. -/
def score (quizData : List QuizQuestion) (userAnswers : List UserAnswer) : Option Nat :=
  userAnswers.foldl (scoreStep quizData) (some 0)

/-- The answer selected by a `UserAnswer`, with `Option` for the lookups. -/
def selectedAnswer (quizData : List QuizQuestion) (ua : UserAnswer) : Option Answer :=
  (quizData[ua.questionIndex]?).bind (fun q => q.answers[ua.answerIndex]?)

/-- Spec-side predicate: the user answer selects an answer with
`isCorrect = true`. -/
def selCorrect (quizData : List QuizQuestion) (ua : UserAnswer) : Bool :=
  (selectedAnswer quizData ua).elim false Answer.isCorrect

/-- Every stored user answer indexes an existing question and an existing
answer of that question. -/
def InBoundsAnswers (quizData : List QuizQuestion) (l : List UserAnswer) : Prop :=
  ∀ ua ∈ l, ∃ q, quizData[ua.questionIndex]? = some q ∧ ua.answerIndex < q.answers.length

/-- The session states reachable from the initial state through the `App`
handlers. `answerSelect` and `nextQuestion` carry the enabling conditions
under which `renderQuiz` can invoke them: the quiz view is rendered only in
`TAKING_QUIZ`, reads `quizData[currentQuestionIndex]`, and offers one button
per element of that question's `answers`. `generateQuiz` feeds the handler the
outcome of the two-phase `generateQuizQuestions` pipeline. -/
inductive Reachable : SessionState → Prop where
  | init : Reachable initialState
  | fileChange (s : SessionState) (fileName : String) (fd : FileData)
      (outcome : Except JsThrown (List String)) :
      Reachable s → Reachable (handleFileChange s fileName fd outcome)
  | topicToggle (s : SessionState) (topic : String) :
      Reachable s → Reachable (handleTopicToggle s topic)
  | questionCountChange (s : SessionState) (n : Nat) :
      Reachable s → Reachable (handleQuestionCountChange s n)
  | generateQuiz (s : SessionState) (search : Except JsThrown SearchResponse)
      (generate : String → Except JsThrown (List QuizQuestion))
      (flipsQ : Nat → Bool) (flipsA : Nat → Nat → Bool) :
      Reachable s →
      Reachable (handleGenerateQuiz s (generateQuizQuestions search generate) flipsQ flipsA)
  | answerSelect (s : SessionState) (answerIndex : Nat) (q : QuizQuestion) :
      Reachable s →
      s.appState = AppState.TAKING_QUIZ →
      s.quizData[s.currentQuestionIndex]? = some q →
      answerIndex < q.answers.length →
      Reachable (handleAnswerSelect s s.currentQuestionIndex answerIndex)
  | nextQuestion (s : SessionState) :
      Reachable s → s.appState = AppState.TAKING_QUIZ →
      Reachable (handleNextQuestion s)
  | startOver (s : SessionState) :
      Reachable s → Reachable (handleStartOver s)

/-- Relation between a displayed question and the generated question it came
from: same stem, same source, answers reordered. -/
def DisplayMatches (displayed original : QuizQuestion) : Prop :=
  displayed.question = original.question ∧ displayed.source = original.source ∧
    displayed.answers.Perm original.answers

/-- Concrete correct answer choice used in witnesses. -/
def sampleCorrect : Answer := { text := "right", isCorrect := true, feedback := "ok" }

/-- Concrete incorrect answer choice used in witnesses. -/
def sampleWrong : Answer := { text := "wrong", isCorrect := false, feedback := "no" }

/-- Concrete source citation used in witnesses. -/
def sampleSource : SourceRef := { title := "Doc", url := "docs.example" }

/-- A question with exactly one correct answer. -/
def oneCorrectQ (stem : String) : QuizQuestion :=
  { question := stem, answers := [sampleCorrect, sampleWrong, sampleWrong, sampleWrong],
    source := sampleSource }

/-- A malformed question with two correct answers. -/
def twoCorrectQ (stem : String) : QuizQuestion :=
  { question := stem, answers := [sampleCorrect, sampleCorrect, sampleWrong, sampleWrong],
    source := sampleSource }

/-- Ten model-returned questions of which two have two correct answers. -/
def tenQuestionBatch : List QuizQuestion :=
  [oneCorrectQ "q1", oneCorrectQ "q2", oneCorrectQ "q3", oneCorrectQ "q4", oneCorrectQ "q5",
   oneCorrectQ "q6", oneCorrectQ "q7", oneCorrectQ "q8", twoCorrectQ "q9", twoCorrectQ "q10"]

/-- Concrete uploaded file data used in witnesses. -/
def sampleFileData : FileData := { base64 := "QUJD", mimeType := "application/pdf" }

/-- Two well-formed questions used by the concrete session runs. -/
def twoQuestionBatch : List QuizQuestion := [oneCorrectQ "q1", oneCorrectQ "q2"]

/-- Session state after a successful upload and topic extraction. -/
def stateAfterUpload : SessionState :=
  handleFileChange initialState "guide.pdf" sampleFileData (.ok ["Topic A"])

/-- Session state after successfully generating a two-question quiz. -/
def stateTakingQuiz : SessionState :=
  handleGenerateQuiz stateAfterUpload
    (generateQuizQuestions (.ok { candidates := none }) (fun _ => .ok twoQuestionBatch))
    (fun _ => true) (fun _ _ => true)

/-- Session state after selecting answer 0 for the current (first) question. -/
def stateAnswered : SessionState :=
  handleAnswerSelect stateTakingQuiz stateTakingQuiz.currentQuestionIndex 0

/-- Session state after advancing from the first question. -/
def stateAdvanced : SessionState := handleNextQuestion stateTakingQuiz

/-- Session state after then moving the question-count slider to 25. -/
def stateResized : SessionState := handleQuestionCountChange stateAdvanced 25

theorem insertRand_perm {α : Type} (f : Nat → Bool) (a : α) :
    ∀ (l : List α) (k : Nat), (insertRand f a l k).1.Perm (a :: l)
  | [], k => by simp [insertRand]
  | b :: l, k => by
    unfold insertRand
    by_cases hf : f k
    · simp [hf]
    · simp only [hf, if_false, Bool.false_eq_true]
      exact (List.Perm.cons b (insertRand_perm f a l (k + 1))).trans (List.Perm.swap a b l)

theorem sortRand_perm {α : Type} (f : Nat → Bool) :
    ∀ (l : List α) (k : Nat), (sortRand f l k).1.Perm l
  | [], _ => by simp [sortRand]
  | a :: l, k => by
    unfold sortRand
    exact (insertRand_perm f a _ _).trans (List.Perm.cons a (sortRand_perm f l k))

theorem shuffleArray_perm {α : Type} (f : Nat → Bool) (l : List α) :
    (shuffleArray f l).Perm l :=
  sortRand_perm f l 0

theorem randomizeAnswers_matches (flipsA : Nat → Nat → Bool) :
    ∀ (i : Nat) (qs : List QuizQuestion),
      List.Forall₂ DisplayMatches (randomizeAnswers flipsA i qs) qs
  | _, [] => List.Forall₂.nil
  | i, q :: qs =>
    List.Forall₂.cons ⟨rfl, rfl, shuffleArray_perm (flipsA i) q.answers⟩
      (randomizeAnswers_matches flipsA (i + 1) qs)

/-- C3: for every comparator randomness, the displayed question list produced
by the pre-presentation randomization pairs off, one for one, with a
permutation of the generated list; each displayed question keeps its stem and
source and its answer list is a permutation of the original answers, so
membership is unchanged and only order may differ. -/
theorem randomizeQuestions_perm (flipsQ : Nat → Bool) (flipsA : Nat → Nat → Bool)
    (questions : List QuizQuestion) :
    (∃ mid : List QuizQuestion,
        List.Forall₂ DisplayMatches (randomizeQuestions flipsQ flipsA questions) mid
      ∧ mid.Perm questions)
  ∧ (randomizeQuestions flipsQ flipsA questions).length = questions.length := by
  refine ⟨⟨shuffleArray flipsQ questions, randomizeAnswers_matches flipsA 0 _,
    shuffleArray_perm flipsQ questions⟩, ?_⟩
  unfold randomizeQuestions
  rw [List.Forall₂.length_eq (randomizeAnswers_matches flipsA 0 (shuffleArray flipsQ questions))]
  exact (shuffleArray_perm flipsQ questions).length_eq

theorem answerSelectUpdate_map_questionIndex (l : List UserAnswer) (qi ai : Nat)
    (h : ((l.find? (fun a => a.questionIndex == qi)).isSome) = true) :
    (answerSelectUpdate l qi ai).map UserAnswer.questionIndex
      = l.map UserAnswer.questionIndex := by
  unfold answerSelectUpdate
  rw [if_pos h, List.map_map]
  apply List.map_congr_left
  intro a _
  by_cases hc : a.questionIndex == qi
  · rw [Function.comp_apply, if_pos hc]
  · rw [Function.comp_apply, if_neg hc]

theorem answerSelectUpdate_append (l : List UserAnswer) (qi ai : Nat)
    (h : l.find? (fun a => a.questionIndex == qi) = none) :
    answerSelectUpdate l qi ai = l ++ [{ questionIndex := qi, answerIndex := ai }] := by
  unfold answerSelectUpdate
  rw [if_neg]
  rw [h]
  simp

theorem answerSelectUpdate_nodup (l : List UserAnswer) (qi ai : Nat)
    (h : (l.map UserAnswer.questionIndex).Nodup) :
    ((answerSelectUpdate l qi ai).map UserAnswer.questionIndex).Nodup := by
  by_cases hf : ((l.find? (fun a => a.questionIndex == qi)).isSome) = true
  · rw [answerSelectUpdate_map_questionIndex l qi ai hf]
    exact h
  · rw [answerSelectUpdate_append l qi ai (by
      cases hfe : l.find? (fun a => a.questionIndex == qi) with
      | none => rfl
      | some x => rw [hfe] at hf; simp at hf)]
    have hnm : qi ∉ l.map UserAnswer.questionIndex := by
      intro hmem
      rcases List.mem_map.mp hmem with ⟨a, hal, hq⟩
      have hnone : l.find? (fun a => a.questionIndex == qi) = none := by
        cases hfe : l.find? (fun a => a.questionIndex == qi) with
        | none => rfl
        | some x => rw [hfe] at hf; simp at hf
      have := List.find?_eq_none.mp hnone a hal
      simp [hq] at this
    simp only [List.map_append, List.map_cons, List.map_nil]
    rw [List.nodup_append]
    exact ⟨h, List.nodup_singleton qi, by
      intro x hx hx'
      simp at hx'
      subst hx'
      exact hnm hx⟩

theorem answerSelectUpdate_inbounds (quizData : List QuizQuestion) (l : List UserAnswer)
    (qi ai : Nat) (q : QuizQuestion)
    (hq : quizData[qi]? = some q) (ha : ai < q.answers.length)
    (h : InBoundsAnswers quizData l) :
    InBoundsAnswers quizData (answerSelectUpdate l qi ai) := by
  unfold answerSelectUpdate
  split
  · intro ua hua
    rcases List.mem_map.mp hua with ⟨a, hal, rfl⟩
    by_cases hc : a.questionIndex == qi
    · have hqi : a.questionIndex = qi := by simpa using hc
      simp only [hc, if_true]
      exact ⟨q, by rw [hqi]; exact hq, ha⟩
    · simp only [hc, if_false, Bool.false_eq_true]
      exact h a hal
  · intro ua hua
    rcases List.mem_append.mp hua with hual | hua1
    · exact h ua hual
    · simp at hua1
      subst hua1
      exact ⟨q, hq, ha⟩

theorem answerSelectUpdate_find?_isSome (l : List UserAnswer) (qi ai : Nat) :
    ((answerSelectUpdate l qi ai).find? (fun a => a.questionIndex == qi)).isSome = true := by
  unfold answerSelectUpdate
  split
  · next h =>
    rw [List.find?_isSome] at h ⊢
    rcases h with ⟨x, hx, hpx⟩
    exact ⟨_, List.mem_map_of_mem _ hx, by simp [hpx]⟩
  · rw [List.find?_isSome]
    exact ⟨{ questionIndex := qi, answerIndex := ai }, by simp, by simp⟩

theorem answerSelectUpdate_length_of_isSome (l : List UserAnswer) (qi ai : Nat)
    (h : ((l.find? (fun a => a.questionIndex == qi)).isSome) = true) :
    (answerSelectUpdate l qi ai).length = l.length := by
  unfold answerSelectUpdate
  rw [if_pos h, List.length_map]

theorem nodup_countP_le_one (l : List UserAnswer)
    (h : (l.map UserAnswer.questionIndex).Nodup) (qi : Nat) :
    l.countP (fun a => a.questionIndex == qi) ≤ 1 := by
  have hc := List.nodup_iff_count_le_one.mp h qi
  rw [List.count_eq_countP, List.countP_map] at hc
  exact hc

theorem scoreStep_eval (quizData : List QuizQuestion) (c : Nat) (ua : UserAnswer)
    (a : Answer) (h : selectedAnswer quizData ua = some a) :
    scoreStep quizData (some c) ua = some (if a.isCorrect then c + 1 else c) := by
  rcases Option.bind_eq_some.mp h with ⟨q, hq, ha⟩
  simp [scoreStep, hq, ha]

theorem score_foldl (quizData : List QuizQuestion) :
    ∀ (l : List UserAnswer) (c : Nat),
      (∀ ua ∈ l, (selectedAnswer quizData ua).isSome = true) →
      l.foldl (scoreStep quizData) (some c)
        = some (c + l.countP (fun ua => selCorrect quizData ua))
  | [], c, _ => by simp
  | ua :: l, c, h => by
    obtain ⟨a, ha⟩ := Option.isSome_iff_exists.mp (h ua (List.mem_cons_self ua l))
    rw [List.foldl_cons, scoreStep_eval quizData c ua a ha,
      score_foldl quizData l _ (fun x hx => h x (List.mem_cons_of_mem ua hx)),
      List.countP_cons]
    have hsel : selCorrect quizData ua = a.isCorrect := by simp [selCorrect, ha]
    rw [hsel]
    cases a.isCorrect <;> (simp; try omega)

theorem score_eq_countP (quizData : List QuizQuestion) (l : List UserAnswer)
    (h : InBoundsAnswers quizData l) :
    score quizData l = some (l.countP (fun ua => selCorrect quizData ua)) := by
  have hsome : ∀ ua ∈ l, (selectedAnswer quizData ua).isSome = true := by
    intro ua hua
    rcases h ua hua with ⟨q, hq, hai⟩
    simp [selectedAnswer, hq, List.getElem?_eq_getElem hai]
  rw [score, score_foldl quizData l 0 hsome, Nat.zero_add]

theorem nodup_lt_length_le {l : List Nat} {n : Nat}
    (hd : l.Nodup) (hlt : ∀ x ∈ l, x < n) : l.length ≤ n := by
  classical
  have hsub : l.toFinset ⊆ Finset.range n := by
    intro x hx
    exact Finset.mem_range.mpr (hlt x (List.mem_toFinset.mp hx))
  have hcard := Finset.card_le_card hsub
  rwa [List.toFinset_card_of_nodup hd, Finset.card_range] at hcard

/-- Invariant maintained by every handler: the stored user answers carry
pairwise-distinct question indices, and every stored index pair is in bounds
for the current quiz data. -/
theorem reachable_userAnswers_wf (s : SessionState) (h : Reachable s) :
    (s.userAnswers.map UserAnswer.questionIndex).Nodup
      ∧ InBoundsAnswers s.quizData s.userAnswers := by
  induction h with
  | init =>
    exact ⟨List.nodup_nil, by intro ua hua; simp [initialState] at hua⟩
  | fileChange s fileName fd outcome _ ih =>
    have hu : (handleFileChange s fileName fd outcome).userAnswers = s.userAnswers := by
      unfold handleFileChange
      cases outcome with
      | ok t => by_cases h0 : (t.length == 0) = true <;> simp [h0]
      | error e => rfl
    have hq : (handleFileChange s fileName fd outcome).quizData = s.quizData := by
      unfold handleFileChange
      cases outcome with
      | ok t => by_cases h0 : (t.length == 0) = true <;> simp [h0]
      | error e => rfl
    rw [hu, hq]
    exact ih
  | topicToggle s topic _ ih => exact ih
  | questionCountChange s n _ ih => exact ih
  | generateQuiz s search generate flipsQ flipsA _ ih =>
    unfold handleGenerateQuiz
    split
    · exact ih
    · cases generateQuizQuestions search generate with
      | ok questions =>
        exact ⟨List.nodup_nil, by intro ua hua; simp at hua⟩
      | error e => exact ih
  | answerSelect s answerIndex q _ _ hq ha ih =>
    exact ⟨answerSelectUpdate_nodup s.userAnswers s.currentQuestionIndex answerIndex ih.1,
      answerSelectUpdate_inbounds s.quizData s.userAnswers s.currentQuestionIndex
        answerIndex q hq ha ih.2⟩
  | nextQuestion s _ _ ih =>
    have hu : (handleNextQuestion s).userAnswers = s.userAnswers := by
      unfold handleNextQuestion
      split <;> rfl
    have hq : (handleNextQuestion s).quizData = s.quizData := by
      unfold handleNextQuestion
      split <;> rfl
    rw [hu, hq]
    exact ih
  | startOver s _ _ =>
    exact ⟨List.nodup_nil, by intro ua hua; simp [handleStartOver] at hua⟩

theorem countP_add_countP_not {α : Type} (l : List α) (p : α → Bool) :
    l.countP p + l.countP (fun a => !p a) = l.length := by
  induction l with
  | nil => simp
  | cons a l ih =>
    rw [List.countP_cons, List.countP_cons]
    cases h : p a <;> simp [h] <;> omega

theorem reachable_stateTakingQuiz : Reachable stateTakingQuiz :=
  Reachable.generateQuiz stateAfterUpload (.ok { candidates := none })
    (fun _ => .ok twoQuestionBatch) (fun _ => true) (fun _ _ => true)
    (Reachable.fileChange initialState "guide.pdf" sampleFileData (.ok ["Topic A"])
      Reachable.init)

theorem reachable_stateAnswered : Reachable stateAnswered :=
  Reachable.answerSelect stateTakingQuiz 0 (oneCorrectQ "q1") reachable_stateTakingQuiz
    (by decide) (by decide) (by decide)

theorem reachable_stateResized : Reachable stateResized :=
  Reachable.questionCountChange stateAdvanced 25
    (Reachable.nextQuestion stateTakingQuiz reachable_stateTakingQuiz (by decide))

/-- C1: on generation-phase success, `generateQuizQuestions` returns exactly
the model-returned questions that have exactly one answer with
`isCorrect = true` (order preserved); questions with zero or multiple correct
answers are dropped, so for a model batch of N questions the result has
length at most N, and a batch of 10 questions of which 2 are malformed yields
8 questions. -/
theorem generateQuizQuestions_keeps_exactly_one_correct
    (resp : SearchResponse) (generate : String → Except JsThrown (List QuizQuestion))
    (qs : List QuizQuestion)
    (hgen : generate (sourcesTextFor (extractGroundingChunks resp)) = .ok qs) :
    generateQuizQuestions (.ok resp) generate = .ok (validateQuestions qs)
  ∧ (validateQuestions qs).Sublist qs
  ∧ (∀ q, q ∈ validateQuestions qs ↔ q ∈ qs ∧ numCorrect q = 1)
  ∧ (∀ N, qs.length = N → (validateQuestions qs).length ≤ N)
  ∧ (qs.length = 10 → (qs.filter (fun q => !(numCorrect q == 1))).length = 2 →
      (validateQuestions qs).length = 8) := by
  refine ⟨?_, List.filter_sublist qs, ?_, ?_, ?_⟩
  · simp [generateQuizQuestions, hgen]
  · intro q
    simp [validateQuestions, List.mem_filter, numCorrect]
  · intro N hN
    calc (validateQuestions qs).length ≤ qs.length := (List.filter_sublist qs).length_le
      _ = N := hN
  · intro h10 h2
    have hv : (validateQuestions qs).length = qs.countP (fun q => numCorrect q == 1) :=
      (List.countP_eq_length_filter _ qs).symm
    have h2c : qs.countP (fun q => !(numCorrect q == 1)) = 2 := by
      rw [List.countP_eq_length_filter]
      exact h2
    have hsum := countP_add_countP_not qs (fun q => numCorrect q == 1)
    rw [hv]
    omega

/-- Witness for C1 at a concrete batch of 10 questions with 2 malformed ones. -/
theorem generateQuizQuestions_keeps_exactly_one_correct_witness :
    generateQuizQuestions (.ok { candidates := none }) (fun _ => .ok tenQuestionBatch)
        = .ok (validateQuestions tenQuestionBatch)
  ∧ (validateQuestions tenQuestionBatch).length = 8 := by
  have h := generateQuizQuestions_keeps_exactly_one_correct { candidates := none }
    (fun _ => .ok tenQuestionBatch) tenQuestionBatch rfl
  exact ⟨h.1, h.2.2.2.2 (by decide) (by decide)⟩

/-- C2: in every reachable session state the score computation succeeds and
equals the number of user answers whose selected answer has
`isCorrect = true`, a count that is at most `quizData.length` (and, being a
natural number, at least 0). -/
theorem score_counts_correct_selections (s : SessionState) (h : Reachable s) :
    score s.quizData s.userAnswers
        = some (s.userAnswers.countP (fun ua => selCorrect s.quizData ua))
  ∧ s.userAnswers.countP (fun ua => selCorrect s.quizData ua) ≤ s.quizData.length := by
  obtain ⟨hnd, hib⟩ := reachable_userAnswers_wf s h
  refine ⟨score_eq_countP s.quizData s.userAnswers hib, ?_⟩
  calc s.userAnswers.countP (fun ua => selCorrect s.quizData ua)
      ≤ s.userAnswers.length := List.countP_le_length _
    _ = (s.userAnswers.map UserAnswer.questionIndex).length := (List.length_map _ _).symm
    _ ≤ s.quizData.length := nodup_lt_length_le hnd (by
        intro x hx
        rcases List.mem_map.mp hx with ⟨ua, hua, rfl⟩
        rcases hib ua hua with ⟨q, hq, _⟩
        rw [List.getElem?_eq_some] at hq
        exact hq.1)

/-- Witness for C2 at a concrete reachable state with one recorded answer. -/
theorem score_counts_correct_selections_witness :
    score stateAnswered.quizData stateAnswered.userAnswers
        = some (stateAnswered.userAnswers.countP
            (fun ua => selCorrect stateAnswered.quizData ua))
  ∧ stateAnswered.userAnswers.countP (fun ua => selCorrect stateAnswered.quizData ua)
        ≤ stateAnswered.quizData.length :=
  score_counts_correct_selections stateAnswered reachable_stateAnswered

/-- C10: in every reachable session state, every stored user answer indexes an
existing question and an existing answer of that question (indices are also
pairwise distinct), so the unchecked indexing in the score computation never
goes out of bounds: the score is defined. -/
theorem reachable_score_indexing_safe (s : SessionState) (h : Reachable s) :
    InBoundsAnswers s.quizData s.userAnswers
  ∧ (s.userAnswers.map UserAnswer.questionIndex).Nodup
  ∧ (score s.quizData s.userAnswers).isSome = true := by
  obtain ⟨hnd, hib⟩ := reachable_userAnswers_wf s h
  refine ⟨hib, hnd, ?_⟩
  rw [score_eq_countP s.quizData s.userAnswers hib]
  rfl

/-- Witness for C10 at a concrete reachable state with one recorded answer. -/
theorem reachable_score_indexing_safe_witness :
    InBoundsAnswers stateAnswered.quizData stateAnswered.userAnswers
  ∧ (stateAnswered.userAnswers.map UserAnswer.questionIndex).Nodup
  ∧ (score stateAnswered.quizData stateAnswered.userAnswers).isSome = true :=
  reachable_score_indexing_safe stateAnswered reachable_stateAnswered

/-- C4 (amended): "start over" resets phase, file, file data, topics, selected
topics, quiz data, user answers and error to their initial values, but leaves
`currentQuestionIndex`, `questionCount` and the loading message unchanged. -/
theorem handleStartOver_resets (s : SessionState) :
    (handleStartOver s).appState = AppState.SETUP
  ∧ (handleStartOver s).file = none
  ∧ (handleStartOver s).fileData = none
  ∧ (handleStartOver s).topics = []
  ∧ (handleStartOver s).selectedTopics = []
  ∧ (handleStartOver s).quizData = []
  ∧ (handleStartOver s).userAnswers = []
  ∧ (handleStartOver s).error = none
  ∧ (handleStartOver s).currentQuestionIndex = s.currentQuestionIndex
  ∧ (handleStartOver s).questionCount = s.questionCount
  ∧ (handleStartOver s).loadingMessage = s.loadingMessage :=
  ⟨rfl, rfl, rfl, rfl, rfl, rfl, rfl, rfl, rfl, rfl, rfl⟩

/-- Counterexample for C4: from the reachable state obtained by generating a
two-question quiz, advancing once and setting the slider to 25, "start over"
leaves the question index at 1 and the question count at 25, so the resulting
state is not the initial state. -/
theorem handleStartOver_counterexample :
    Reachable stateResized
  ∧ (handleStartOver stateResized).currentQuestionIndex = 1
  ∧ (handleStartOver stateResized).questionCount = 25
  ∧ handleStartOver stateResized ≠ initialState :=
  ⟨reachable_stateResized, by decide, by decide, by decide⟩

/-- C5 (amended): when either phase of quiz generation throws, the failure
propagates out of `generateQuizQuestions`; the caller surfaces the thrown
`Error`'s own message (falling back to the generic "Failed to generate quiz."
only for non-`Error` values), returns the session to Setup with the error
set, and retains no partial results: quiz data and user answers are
untouched. -/
theorem generateQuiz_failure_behavior (s : SessionState) (e : JsThrown)
    (flipsQ : Nat → Bool) (flipsA : Nat → Nat → Bool)
    (hfd : s.fileData.isNone = false) (hts : (s.selectedTopics.length == 0) = false) :
    (handleGenerateQuiz s (.error e) flipsQ flipsA).appState = AppState.SETUP
  ∧ (handleGenerateQuiz s (.error e) flipsQ flipsA).error
      = some (caughtMessage generateFallbackMessage e)
  ∧ (handleGenerateQuiz s (.error e) flipsQ flipsA).quizData = s.quizData
  ∧ (handleGenerateQuiz s (.error e) flipsQ flipsA).userAnswers = s.userAnswers
  ∧ (∀ generate, generateQuizQuestions (.error e) generate = .error e)
  ∧ (∀ resp generate,
       generate (sourcesTextFor (extractGroundingChunks resp)) = .error e →
       generateQuizQuestions (.ok resp) generate = .error e) := by
  have hguard : (s.fileData.isNone || s.selectedTopics.length == 0) = false := by
    rw [hfd, hts]
    rfl
  have hmain : handleGenerateQuiz s (.error e) flipsQ flipsA
      = { s with error := some (caughtMessage generateFallbackMessage e)
                 appState := AppState.SETUP
                 loadingMessage := generatingMessage } := by
    unfold handleGenerateQuiz
    simp only [hguard, Bool.false_eq_true, if_false]
  refine ⟨by rw [hmain], by rw [hmain], by rw [hmain], by rw [hmain],
    fun generate => rfl, ?_⟩
  intro resp generate hg
  simp [generateQuizQuestions, hg]

/-- Witness for C5 at a concrete state and a concrete thrown `Error`. -/
theorem generateQuiz_failure_behavior_witness :
    (handleGenerateQuiz stateAfterUpload (.error (.error "boom"))
        (fun _ => true) (fun _ _ => true)).appState = AppState.SETUP
  ∧ (handleGenerateQuiz stateAfterUpload (.error (.error "boom"))
        (fun _ => true) (fun _ _ => true)).error
      = some (caughtMessage generateFallbackMessage (.error "boom")) := by
  have h := generateQuiz_failure_behavior stateAfterUpload (.error "boom")
    (fun _ => true) (fun _ _ => true) (by decide) (by decide)
  exact ⟨h.1, h.2.1⟩

/-- Counterexample for C5: a generation failure whose thrown value is an
`Error` with message "Network failure" surfaces that very text, not the
generic "Failed to generate quiz." message the claim asserts. -/
theorem generateQuiz_error_message_counterexample :
    (handleGenerateQuiz stateAfterUpload
        (generateQuizQuestions (.error (.error "Network failure")) (fun _ => .ok []))
        (fun _ => true) (fun _ _ => true)).error = some "Network failure"
  ∧ some "Network failure" ≠ some generateFallbackMessage :=
  ⟨by decide, by decide⟩

/-- C6: a model response with `isGuide = false` makes `extractTopicsFromGuide`
fail with the "not a valid guide" error, which `handleFileChange` surfaces to
the user with no topic list; with `isGuide = true` the topics array is
returned, empty when the field is omitted or empty. -/
theorem extractTopics_guide_classification (r : TopicsResponse) :
    (r.isGuide = false →
        extractTopicsFromGuide (.ok r) = .error (.error invalidGuideMessage)
      ∧ ∀ s fileName fd,
          (handleFileChange s fileName fd (extractTopicsFromGuide (.ok r))).error
              = some invalidGuideMessage
        ∧ (handleFileChange s fileName fd (extractTopicsFromGuide (.ok r))).topics = []
        ∧ (handleFileChange s fileName fd (extractTopicsFromGuide (.ok r))).appState
              = AppState.SETUP)
  ∧ (r.isGuide = true → extractTopicsFromGuide (.ok r) = .ok (r.topics.getD []))
  ∧ (r.isGuide = true → r.topics = none → extractTopicsFromGuide (.ok r) = .ok [])
  ∧ (r.isGuide = true → r.topics = some [] → extractTopicsFromGuide (.ok r) = .ok []) := by
  refine ⟨?_, ?_, ?_, ?_⟩
  · intro hg
    have hext : extractTopicsFromGuide (.ok r) = .error (.error invalidGuideMessage) := by
      simp [extractTopicsFromGuide, hg]
    refine ⟨hext, ?_⟩
    intro s fileName fd
    rw [hext]
    exact ⟨rfl, rfl, rfl⟩
  · intro hg
    simp [extractTopicsFromGuide, hg]
  · intro hg ht
    simp [extractTopicsFromGuide, hg, ht]
  · intro hg ht
    simp [extractTopicsFromGuide, hg, ht]

/-- Witness for C6 at a concrete non-guide response. -/
theorem extractTopics_guide_classification_witness :
    extractTopicsFromGuide (.ok { topics := some ["A"], isGuide := false })
        = .error (.error invalidGuideMessage)
  ∧ (handleFileChange initialState "f" sampleFileData
        (extractTopicsFromGuide (.ok { topics := some ["A"], isGuide := false }))).error
      = some invalidGuideMessage := by
  have h := (extractTopics_guide_classification { topics := some ["A"], isGuide := false }).1 rfl
  exact ⟨h.1, (h.2 initialState "f" sampleFileData).1⟩

/-- C7: when the grounding phase yields zero citations, the sources text is
the fixed fallback instruction to rely solely on the provided exam guide, the
generation phase is invoked with that fallback, and its successful result is
returned (validated) rather than a failure. -/
theorem zero_citations_fallback (resp : SearchResponse)
    (generate : String → Except JsThrown (List QuizQuestion))
    (h : extractGroundingChunks resp = []) :
    sourcesTextFor (extractGroundingChunks resp) = fallbackSourcesText
  ∧ generateQuizQuestions (.ok resp) generate
      = (generate fallbackSourcesText).map validateQuestions
  ∧ (∀ qs, generate fallbackSourcesText = .ok qs →
       generateQuizQuestions (.ok resp) generate = .ok (validateQuestions qs)) := by
  have hst : sourcesTextFor (extractGroundingChunks resp) = fallbackSourcesText := by
    rw [h]
    simp [sourcesTextFor]
  refine ⟨hst, ?_, ?_⟩
  · show (match generate (sourcesTextFor (extractGroundingChunks resp)) with
      | Except.error e => Except.error e
      | Except.ok quizData => Except.ok (validateQuestions quizData))
        = (generate fallbackSourcesText).map validateQuestions
    rw [hst]
    cases hg : generate fallbackSourcesText <;> simp [Except.map]
  · intro qs hq
    show (match generate (sourcesTextFor (extractGroundingChunks resp)) with
      | Except.error e => Except.error e
      | Except.ok quizData => Except.ok (validateQuestions quizData))
        = Except.ok (validateQuestions qs)
    rw [hst, hq]

/-- Witness for C7 at a metadata-free search response. -/
theorem zero_citations_fallback_witness :
    sourcesTextFor (extractGroundingChunks { candidates := none }) = fallbackSourcesText
  ∧ generateQuizQuestions (.ok { candidates := none })
        (fun _ => .ok twoQuestionBatch)
      = .ok (validateQuestions twoQuestionBatch) := by
  have h := zero_citations_fallback { candidates := none }
    (fun _ => .ok twoQuestionBatch) rfl
  exact ⟨h.1, h.2.2 twoQuestionBatch rfl⟩

/-- C8: selecting an answer updates the existing entry for that question index
or appends a new one; under the invariant that question indices are
duplicate-free, the result keeps at most one entry per question index, and a
second select for the same question is an update, leaving the length
unchanged. -/
theorem answerSelect_upsert (l : List UserAnswer) (qi ai : Nat)
    (h : (l.map UserAnswer.questionIndex).Nodup) :
    ((answerSelectUpdate l qi ai).map UserAnswer.questionIndex).Nodup
  ∧ (∀ qj, (answerSelectUpdate l qi ai).countP (fun a => a.questionIndex == qj) ≤ 1)
  ∧ (((l.find? (fun a => a.questionIndex == qi)).isSome) = true →
       (answerSelectUpdate l qi ai).length = l.length)
  ∧ (l.find? (fun a => a.questionIndex == qi) = none →
       answerSelectUpdate l qi ai = l ++ [{ questionIndex := qi, answerIndex := ai }])
  ∧ (answerSelectUpdate (answerSelectUpdate l qi ai) qi ai).length
      = (answerSelectUpdate l qi ai).length := by
  have hnd := answerSelectUpdate_nodup l qi ai h
  exact ⟨hnd, fun qj => nodup_countP_le_one _ hnd qj,
    answerSelectUpdate_length_of_isSome l qi ai,
    answerSelectUpdate_append l qi ai,
    answerSelectUpdate_length_of_isSome _ qi ai (answerSelectUpdate_find?_isSome l qi ai)⟩

/-- Witness for C8 at a concrete one-entry answer list. -/
theorem answerSelect_upsert_witness :
    (answerSelectUpdate (answerSelectUpdate [⟨0, 1⟩] 0 2) 0 2).length
        = (answerSelectUpdate [⟨0, 1⟩] 0 2).length
  ∧ (answerSelectUpdate [⟨0, 1⟩] 0 2).length = ([⟨0, 1⟩] : List UserAnswer).length := by
  have h := answerSelect_upsert [⟨0, 1⟩] 0 2 (by decide)
  exact ⟨h.2.2.2.2, h.2.2.1 (by decide)⟩

theorem handleNextQuestion_incr (t : SessionState)
    (hc : t.currentQuestionIndex < t.quizData.length - 1) :
    handleNextQuestion t = { t with currentQuestionIndex := t.currentQuestionIndex + 1 } := by
  unfold handleNextQuestion
  rw [if_pos hc]

theorem handleNextQuestion_review (t : SessionState)
    (hc : ¬ t.currentQuestionIndex < t.quizData.length - 1) :
    handleNextQuestion t = { t with appState := AppState.REVIEW } := by
  unfold handleNextQuestion
  rw [if_neg hc]

theorem nextQuestion_run (s : SessionState)
    (hs : s.appState = AppState.TAKING_QUIZ) (h0 : s.currentQuestionIndex = 0) :
    ∀ k, k < s.quizData.length →
      (handleNextQuestion^[k] s).appState = AppState.TAKING_QUIZ
    ∧ (handleNextQuestion^[k] s).currentQuestionIndex = k
    ∧ (handleNextQuestion^[k] s).quizData = s.quizData := by
  intro k
  induction k with
  | zero =>
    intro _
    exact ⟨hs, h0, rfl⟩
  | succ k ih =>
    intro hk
    obtain ⟨h1, h2, h3⟩ := ih (by omega)
    rw [Function.iterate_succ_apply']
    have hc : (handleNextQuestion^[k] s).currentQuestionIndex
        < (handleNextQuestion^[k] s).quizData.length - 1 := by
      rw [h2, h3]
      omega
    rw [handleNextQuestion_incr _ hc]
    refine ⟨h1, ?_, h3⟩
    show (handleNextQuestion^[k] s).currentQuestionIndex + 1 = k + 1
    rw [h2]

/-- C9: in `TAKING_QUIZ`, advancing increments the question index while the
current index is below the last question, and at the last question it flips
the phase to `REVIEW` (leaving the index unchanged); over a full run from
index 0, all advances but the last stay in `TAKING_QUIZ` and the
`quizData.length`-th advance — the one taken at the final question — is the
single transition to `REVIEW`. -/
theorem nextQuestion_advance (s : SessionState) (hs : s.appState = AppState.TAKING_QUIZ) :
    (s.currentQuestionIndex < s.quizData.length - 1 →
       handleNextQuestion s = { s with currentQuestionIndex := s.currentQuestionIndex + 1 }
     ∧ (handleNextQuestion s).appState = AppState.TAKING_QUIZ)
  ∧ (0 < s.quizData.length → s.currentQuestionIndex = s.quizData.length - 1 →
       (handleNextQuestion s).appState = AppState.REVIEW
     ∧ (handleNextQuestion s).currentQuestionIndex = s.currentQuestionIndex)
  ∧ (s.currentQuestionIndex = 0 →
       (∀ k, k < s.quizData.length →
          (handleNextQuestion^[k] s).appState = AppState.TAKING_QUIZ)
     ∧ (0 < s.quizData.length →
          (handleNextQuestion^[s.quizData.length] s).appState = AppState.REVIEW)) := by
  refine ⟨?_, ?_, ?_⟩
  · intro hlt
    have he := handleNextQuestion_incr s hlt
    refine ⟨he, ?_⟩
    rw [he]
    exact hs
  · intro hpos hlast
    have he := handleNextQuestion_review s (by omega)
    constructor
    · rw [he]
    · rw [he]
  · intro h0
    refine ⟨fun k hk => (nextQuestion_run s hs h0 k hk).1, ?_⟩
    intro hpos
    obtain ⟨m, hm⟩ : ∃ m, s.quizData.length = m + 1 := ⟨s.quizData.length - 1, by omega⟩
    obtain ⟨h1, h2, h3⟩ := nextQuestion_run s hs h0 m (by omega)
    rw [hm, Function.iterate_succ_apply',
      handleNextQuestion_review _ (by rw [h2, h3, hm]; omega)]

/-- Witness for C9 on the concrete reachable two-question quiz state. -/
theorem nextQuestion_advance_witness :
    (handleNextQuestion^[stateTakingQuiz.quizData.length] stateTakingQuiz).appState
        = AppState.REVIEW
  ∧ (handleNextQuestion^[1] stateTakingQuiz).appState = AppState.TAKING_QUIZ := by
  have h := (nextQuestion_advance stateTakingQuiz (by decide)).2.2 (by decide)
  exact ⟨h.2 (by decide), h.1 1 (by decide)⟩

end QuizApp
